import Mathlib

/-!
# Verification of the product-mix dashboard core (src/dashboard.js)

Shallow embedding of the client-side pipeline of `src/dashboard.js`:
row data model, series-key derivation (`loadSales`, lines 104-110),
filter registry (`buildTypeFilters`, `refreshSelected`), the renderer
(`render`, lines 61-93), the loader (`loadSales`, lines 95-120) and the
event wiring (lines 122-132).

JS objects are modelled as association lists from field names to integer
values, with the `date` field held separately (a JS object has at most one
`date` key, and its value is a string, not a number).  `Object.keys r`
is therefore `"date" :: field names`.  The JS read `r[k] || 0` on a
numeric-or-absent field is `rowGet`.
-/

/-- One row of the `/api/sales` response: a calendar date plus a sparse
mapping from field names to numeric values (series keys and the reserved
aggregates).  The `date` key of the JS object is the `date` component;
all other keys are in `fields`. -/
structure Row where
  date : String
  fields : List (String × Int)
deriving Repr, DecidableEq

/-- `Object.keys r` for a row object: the `date` key plus the other field
names, in insertion order. -/
def Row.objKeys (r : Row) : List String :=
  "date" :: r.fields.map Prod.fst

/-- The JS read `r[k] || 0` used by `render` (dashboard.js lines 71, 75, 81):
the field's numeric value when present, else `0`. -/
def rowGet (r : Row) (k : String) : Int :=
  (r.fields.lookup k).getD 0

/-- The four reserved aggregate field names (spec §3 / glossary). -/
def reservedKeys : List String :=
  ["total", "orders_total", "units_total", "sales_total"]

/-- The filter on field names applied at dashboard.js line 107:
`k!=="date" && k!=="total" && k!=="orders_total" && k!=="units_total" && k!=="sales_total"`. -/
def isSeriesField (k : String) : Bool :=
  k != "date" && k != "total" && k != "orders_total" &&
    k != "units_total" && k != "sales_total"

/-- Lexicographic order on strings via their character lists.  This is the
order of the JS default `Array.prototype.sort` on strings; it agrees with
Mathlib's `String` order (`strLe_iff`) but, unlike `String.decidableLE`,
its decidability instance evaluates inside the kernel. -/
def strLe (a b : String) : Prop :=
  a.data ≤ b.data

instance : DecidableRel strLe :=
  fun a b => inferInstanceAs (Decidable (a.data ≤ b.data))

theorem strLe_iff (a b : String) : strLe a b ↔ a ≤ b :=
  (String.le_iff_toList_le).symm

instance : IsTotal String strLe :=
  ⟨fun a b => by rw [strLe_iff, strLe_iff]; exact le_total a b⟩

instance : IsTrans String strLe :=
  ⟨fun a b c hab hbc => by rw [strLe_iff] at *; exact le_trans hab hbc⟩

/-- Series-key derivation of dashboard.js lines 104-110: collect every
row's own field names that pass `isSeriesField` into a `Set`, then
`Array.from(set).sort()`.  The JS `Set` deduplicates; `.sort()` orders
lexicographically.  Since the deduplicated list has no duplicates, the
sorted result is the unique ascending arrangement, so any correct sort
gives the JS result; we use `List.insertionSort`. -/
def seriesKeysOf (rows : List Row) : List String :=
  (((rows.flatMap Row.objKeys).filter isSeriesField).dedup).insertionSort strLe

/-- The key set as the spec's sentence words it, for comparison with
`seriesKeysOf`: the distinct field names observed across all rows,
"excluding the four reserved aggregate names" — and nothing else —
deduplicated and sorted ascending.  This is the refinement target, not a
translation of the source. -/
def specSeriesKeys (rows : List Row) : List String :=
  (((rows.flatMap Row.objKeys).filter (fun k => !reservedKeys.contains k)).dedup).insertionSort strLe

/-! ## Renderer (dashboard.js lines 61-93)

`render()` reads the DOM and module variables; its computational core is a
function of (rows, seriesKeys, selected, metric, chartType, showOrders,
currency).  We embed that core as `renderTraces` / `renderLayout`, and the
stateful `render()` (which first runs `refreshSelected`) separately as
`renderState` below. -/

/-- One Plotly trace as built by `render`.  `hovertemplate` is the literal
template string; `yaxis` is `some "y2"` only for the Orders trace. -/
structure Trace where
  x : List String
  y : List Int
  type : String
  mode : Option String
  name : String
  hovertemplate : Option String
  yaxis : Option String
deriving Repr, DecidableEq

/-- The hover template `` `%{x}<br>${k}: %{y}<extra></extra>` `` built for key `k`. -/
def hoverFor (k : String) : String :=
  "%{x}<br>" ++ k ++ ": %{y}<extra></extra>"

/-- The stacked-bar trace pushed for key `k` when `chart === "bar"` (line 71). -/
def barTrace (dates : List String) (rows : List Row) (k : String) : Trace :=
  { x := dates, y := rows.map (fun r => rowGet r k), type := "bar", mode := none,
    name := k, hovertemplate := some (hoverFor k), yaxis := none }

/-- The line-with-markers trace pushed for key `k` in the non-bar branch (lines 75-76). -/
def lineTrace (dates : List String) (rows : List Row) (k : String) : Trace :=
  { x := dates, y := rows.map (fun r => rowGet r k), type := "scatter",
    mode := some "lines+markers", name := k, hovertemplate := some (hoverFor k), yaxis := none }

/-- The Orders trace appended when `showOrders` is checked (line 81). -/
def ordersTrace (dates : List String) (rows : List Row) : Trace :=
  { x := dates, y := rows.map (fun r => rowGet r "orders_total"), type := "scatter",
    mode := some "lines+markers", name := "Orders", hovertemplate := none, yaxis := some "y2" }

/-- The trace list built by `render` (lines 65-82): filter `seriesKeys` to
those in `selected` (`selected.has(k)` is list membership on our model of
the JS `Set`), push one product trace per key, then the optional Orders
trace. -/
def renderTraces (rows : List Row) (seriesKeys selected : List String)
    (chart : String) (showOrders : Bool) : List Trace :=
  let dates := rows.map Row.date
  let keys := seriesKeys.filter (fun k => selected.contains k)
  let prod := if chart = "bar" then keys.map (barTrace dates rows)
              else keys.map (lineTrace dates rows)
  prod ++ (if showOrders then [ordersTrace dates rows] else [])

/-- JS `x || d` on an optional string: `none` and the empty string (both
falsy) give the default. -/
def jsOr (o : Option String) (d : String) : String :=
  match o with
  | none => d
  | some "" => d
  | some c => c

/-- The layout object built by `render` (lines 84-91). -/
structure Layout where
  title : String
  barmode : String
  xaxisTitle : String
  xaxisType : String
  yaxisTitle : String
  y2Title : String
  y2Overlaying : String
  y2Side : String
  y2Showgrid : Bool
deriving Repr, DecidableEq

def renderLayout (metric : String) (currency : Option String) : Layout :=
  { title := "Daily Product Mix (" ++ (if metric = "sales" then "Sales $" else "Units") ++ ")"
    barmode := "stack"
    xaxisTitle := "Date", xaxisType := "category"
    yaxisTitle := if metric = "sales" then "Sales (" ++ jsOr currency "USD" ++ ")" else "Units"
    y2Title := "Orders", y2Overlaying := "y", y2Side := "right", y2Showgrid := false }

/-- The chart description handed to `Plotly.newPlot`: traces plus layout. -/
def renderDesc (rows : List Row) (seriesKeys selected : List String)
    (metric chart : String) (showOrders : Bool) (currency : Option String) :
    List Trace × Layout :=
  (renderTraces rows seriesKeys selected chart showOrders, renderLayout metric currency)

/-! ## Module state and DOM (dashboard.js lines 1-59, 95-132)

The module-level mutable variables (`rows`, `seriesKeys`, `selected`,
`currency`), the DOM controls the code reads (`start`, `end`, `groupBy`,
`metric`, `chartType`, `showOrders`), the filter-chip checkboxes inside
`#typeChips`, the closure-captured `keys` of the All/None button handlers,
the `hide` class of the filter card, and the status line. -/

/-- One checkbox chip inside `#typeChips`: its `data-key` and checked state. -/
structure Chip where
  key : String
  checked : Bool
deriving Repr, DecidableEq

structure DashState where
  shop : String
  startV : String
  endV : String
  groupByV : String
  metricV : String
  chartTypeV : String
  showOrdersV : Bool
  rows : List Row
  seriesKeys : List String
  selected : List String
  currency : Option String
  chips : List Chip
  btnKeys : List String
  filtersHidden : Bool
  status : String
  statusErr : Bool
deriving Repr, DecidableEq

/-- `setStatus` (line 31): writes the status text and its error colour. -/
def setStatus (s : DashState) (msg : String) (err : Bool) : DashState :=
  { s with status := msg, statusErr := err }

/-- The keys of the checked chips, in chip order — what
`document.querySelectorAll("#typeChips input:checked")` yields.  Hidden
elements still match, so this reads the chip DOM even while the filter
card carries the `hide` class. -/
def checkedKeys (chips : List Chip) : List String :=
  (chips.filter Chip.checked).map Chip.key

/-- `refreshSelected` (lines 56-59): overwrite `selected` with the keys of
the currently checked chips. -/
def refreshSelected (s : DashState) : DashState :=
  { s with selected := checkedKeys s.chips }

/-- `render()` (lines 61-93) as a state transformer: it first runs
`refreshSelected` (mutating `selected`), then builds the chart description
from the refreshed state and hands it to Plotly.  Returns the post-state
and the description. -/
def renderState (s : DashState) : DashState × (List Trace × Layout) :=
  let t := refreshSelected s
  (t, renderDesc t.rows t.seriesKeys t.selected t.metricV t.chartTypeV t.showOrdersV t.currency)

/-- `buildTypeFilters(keys)` (lines 39-55): clear `#typeChips`, set
`selected = new Set(keys)`, create one checked chip per key, and rebind the
All/None handlers to capture `keys`. -/
def buildTypeFilters (s : DashState) (keys : List String) : DashState :=
  { s with chips := keys.map (fun k => ⟨k, true⟩),
           selected := keys,
           btnKeys := keys }

/-- A user click on chip `k`'s checkbox: the browser flips its checked
state, then the `change` listener (line 48) runs `render`. -/
def toggleChip (s : DashState) (k : String) : DashState :=
  let s := { s with chips := s.chips.map (fun c =>
    if c.key = k then { c with checked := !c.checked } else c) }
  (renderState s).1

/-- `btnAll.onclick` (line 53): check every chip, set `selected` to the
captured keys, render. -/
def selectAllOp (s : DashState) : DashState :=
  let s := { s with chips := s.chips.map (fun c => { c with checked := true }),
                    selected := s.btnKeys }
  (renderState s).1

/-- `btnNone.onclick` (line 54): uncheck every chip, empty `selected`, render. -/
def selectNoneOp (s : DashState) : DashState :=
  let s := { s with chips := s.chips.map (fun c => { c with checked := false }),
                    selected := [] }
  (renderState s).1

/-! ## Data loader (dashboard.js lines 33-37, 95-120) -/

/-- The parsed JSON body of a successful `/api/sales` response:
`rows` may be absent (line 102 defaults it to `[]`), `currency` and `tz`
may be absent or empty. -/
structure Payload where
  rows : Option (List Row)
  currency : Option String
  tz : Option String
deriving Repr, DecidableEq

/-- The two failure modes of `jget` (lines 33-37): a non-ok HTTP response
(thrown as `` `HTTP ${status}: ${body}` ``) or a transport failure
propagated from `fetch`. -/
inductive LoadError where
  | http (status : Nat) (body : String)
  | transport (msg : String)
deriving Repr, DecidableEq

/-- The `message` of the thrown error, as interpolated at line 35. -/
def LoadError.message : LoadError → String
  | .http st body => "HTTP " ++ toString st ++ ": " ++ body
  | .transport msg => msg

/-- The five query parameters of the single GET request `loadSales` builds
at line 100.  Issuing a request with these parameters is the only network
activity of the program. -/
structure Request where
  shop : String
  startDate : String
  endDate : String
  groupBy : String
  metric : String
deriving Repr, DecidableEq

/-- The request `loadSales` sends from state `s`. -/
def requestOf (s : DashState) : Request :=
  ⟨s.shop, s.startV, s.endV, s.groupByV, s.metricV⟩

/-- `loadSales()` (lines 95-120), with the environment's response to the
single request passed in as `resp`.  Returns the new state and the list of
requests issued (always exactly one: `loadSales` never guards on `shop`).

On success: `rows = res.rows || []`, `currency = res.currency || null`,
recompute `seriesKeys`; if `groupBy === "product_type"` un-hide the filter
card and rebuild the chips, else hide it and set `selected` to all keys;
set the status line; finally call `render()` (whose `refreshSelected`
overwrites `selected` from the chip DOM).  On failure: only the status
line changes. -/
def loadSales (s : DashState) (resp : Except LoadError Payload) :
    DashState × List Request :=
  let s := setStatus s "Loading …" false
  let req := requestOf s
  match resp with
  | .error e => (setStatus s ("Load failed: " ++ e.message) true, [req])
  | .ok p =>
    let rows := p.rows.getD []
    let currency := match p.currency with
                    | none => none
                    | some "" => none
                    | some c => some c
    let sk := seriesKeysOf rows
    let s := { s with rows := rows, currency := currency, seriesKeys := sk }
    let s := if s.groupByV = "product_type" then
               { buildTypeFilters s sk with filtersHidden := false }
             else
               { s with filtersHidden := true, selected := sk }
    let s := setStatus s ("Loaded " ++ toString rows.length ++ " days • series=" ++
               toString sk.length ++ " • tz=" ++ jsOr p.tz "?") false
    ((renderState s).1, [req])

/-! ## Event wiring (dashboard.js lines 122-132) -/

/-- The discrete user/DOM events the listeners react to.  Events that
trigger `loadSales` carry the environment's response to the request the
load will issue. -/
inductive Event where
  | clickLoad (resp : Except LoadError Payload)
  | changeChartType (v : String)
  | changeMetric (v : String) (resp : Except LoadError Payload)
  | changeGroupBy (v : String) (resp : Except LoadError Payload)
  | changeShowOrders (b : Bool)
  | changeStart (v : String) (resp : Except LoadError Payload)
  | changeEnd (v : String) (resp : Except LoadError Payload)
  | clickChip (k : String)
  | clickAll
  | clickNone

/-- One step of the event loop: the listener wiring of lines 122-130 plus
the chip/All/None handlers.  Returns the new state and the requests issued. -/
def step (s : DashState) (ev : Event) : DashState × List Request :=
  match ev with
  | .clickLoad resp => loadSales s resp
  | .changeChartType v => ((renderState { s with chartTypeV := v }).1, [])
  | .changeMetric v resp => loadSales { s with metricV := v } resp
  | .changeGroupBy v resp => loadSales { s with groupByV := v } resp
  | .changeShowOrders b => ((renderState { s with showOrdersV := b }).1, [])
  | .changeStart v resp => loadSales { s with startV := v } resp
  | .changeEnd v resp => loadSales { s with endV := v } resp
  | .clickChip k => (toggleChip s k, [])
  | .clickAll => (selectAllOp s, [])
  | .clickNone => (selectNoneOp s, [])

/-- The initial load decision at line 132:
`if(shop){ loadSales(); } else { setStatus("Add ?shop=…", true); }`. -/
def initialLoad (s : DashState) (resp : Except LoadError Payload) :
    DashState × List Request :=
  if s.shop = "" then (setStatus s "Add ?shop=your-store.myshopify.com" true, [])
  else loadSales s resp

/-! ## Concrete sample data for witnesses and counterexamples -/

/-- Scenario A, day 1: `{date:"2024-01-01",A:5,B:2,orders_total:3}`. -/
def rowA1 : Row := ⟨"2024-01-01", [("A", 5), ("B", 2), ("orders_total", 3)]⟩

/-- Scenario A, day 2: `{date:"2024-01-02",A:0,orders_total:1}` (B absent). -/
def rowA2 : Row := ⟨"2024-01-02", [("A", 0), ("orders_total", 1)]⟩

def sampleRows : List Row := [rowA1, rowA2]

/-- A freshly initialised module state: empty data, no chips yet, the
default controls, a configured shop. -/
def initState : DashState :=
  { shop := "demo.myshopify.com", startV := "2024-01-01", endV := "2024-01-14",
    groupByV := "day", metricV := "sales", chartTypeV := "bar", showOrdersV := false,
    rows := [], seriesKeys := [], selected := [], currency := none,
    chips := [], btnKeys := [], filtersHidden := false,
    status := "", statusErr := false }

/-- The same fresh state with no `?shop=` query parameter. -/
def noShopState : DashState := { initState with shop := "" }

/-- A response payload whose rows carry the single series key `A`. -/
def payloadA : Payload :=
  ⟨some [⟨"2024-01-01", [("A", 5)]⟩], some "USD", some "America/New_York"⟩

/-- A state as left by a categorical load of `sampleRows`: chips in sync
with `seriesKeys = ["A", "B"]`, everything selected. -/
def syncState : DashState :=
  { initState with
    groupByV := "product_type", rows := sampleRows,
    seriesKeys := ["A", "B"], selected := ["A", "B"],
    chips := [⟨"A", true⟩, ⟨"B", true⟩], btnKeys := ["A", "B"] }

/-- A payload carrying Scenario A's rows (series keys `A` and `B`). -/
def payloadAB : Payload := ⟨some sampleRows, some "USD", none⟩

/-- `syncState` after the user unchecked `B`'s chip and the grouping
control was switched to the non-categorical `day` — the state just before
the reload that switch triggers. -/
def staleChipState : DashState :=
  { syncState with
    chips := [⟨"A", true⟩, ⟨"B", false⟩], selected := ["A"], groupByV := "day" }

/-- Renderer-state pair for the purity analysis: one key `A`, its chip
checked, `selected = ["A"]`. -/
def s9a : DashState :=
  { initState with
    rows := [⟨"2024-01-01", [("A", 5)]⟩],
    seriesKeys := ["A"], selected := ["A"], chips := [⟨"A", true⟩], btnKeys := ["A"] }

/-- Identical to `s9a` in every renderer argument the spec names
(rows, seriesKeys, selected, metric, chartType, showOrders, currency),
differing only in the chip DOM: `A`'s chip is unchecked. -/
def s9b : DashState := { s9a with chips := [⟨"A", false⟩] }

/-- Identical to `s9a` in rows, seriesKeys, chips and display options,
differing only in fields the renderer does not read. -/
def s9c : DashState := { s9a with status := "stale", shop := "other.myshopify.com" }

/-! ## Helper lemmas -/

theorem mem_seriesKeysOf (rows : List Row) (k : String) :
    k ∈ seriesKeysOf rows ↔ (isSeriesField k = true ∧ ∃ r ∈ rows, k ∈ r.objKeys) := by
  unfold seriesKeysOf
  rw [(List.perm_insertionSort strLe _).mem_iff, List.mem_dedup, List.mem_filter,
    List.mem_flatMap]
  exact and_comm

theorem seriesKeysOf_nodup (rows : List Row) : (seriesKeysOf rows).Nodup :=
  ((List.perm_insertionSort strLe _).nodup_iff).mpr (List.nodup_dedup _)

theorem seriesKeysOf_sorted (rows : List Row) : (seriesKeysOf rows).Sorted (· ≤ ·) :=
  (List.sorted_insertionSort strLe _).imp (fun h => (strLe_iff _ _).mp h)

theorem isSeriesField_iff (k : String) :
    isSeriesField k = true ↔ (k ≠ "date" ∧ k ∉ reservedKeys) := by
  simp only [isSeriesField, reservedKeys, Bool.and_eq_true, bne_iff_ne, List.mem_cons,
    List.not_mem_nil, not_or, or_false]
  tauto

/-- The keys of the checked chips are among the keys of all chips. -/
theorem checkedKeys_subset (chips : List Chip) :
    checkedKeys chips ⊆ chips.map Chip.key :=
  List.map_subset Chip.key (List.filter_subset' chips)

theorem lookup_eq_none_of_not_mem (k : String) (l : List (String × Int))
    (h : k ∉ l.map Prod.fst) : l.lookup k = none := by
  induction l with
  | nil => rfl
  | cons hd tl ih =>
    simp only [List.map_cons, List.mem_cons, not_or] at h
    rw [List.lookup_cons, show (k == hd.1) = false from beq_eq_false_iff_ne.mpr h.1]
    exact ih h.2

/-- Sparse fill: a row without field `k` reads as `0` (`r[k] || 0`). -/
theorem rowGet_of_not_mem (r : Row) (k : String)
    (h : k ∉ r.fields.map Prod.fst) : rowGet r k = 0 := by
  unfold rowGet
  rw [lookup_eq_none_of_not_mem k r.fields h]
  rfl

/-! ## Claim C2 — the derived series-key set -/

/-- C2 (counterexample): the claim says the key set contains exactly the
field names that are not among the four reserved aggregate names.  On the
row `{date:"2024-01-01", A:5}`, the field name `date` is not reserved, so
the claim's key set is `["A", "date"]`, but the code (line 107) also
filters out `date` and yields `["A"]`. -/
theorem c2_keyset_counterexample :
    (specSeriesKeys [⟨"2024-01-01", [("A", 5)]⟩]).contains "date" = true ∧
    reservedKeys.contains "date" = false ∧
    (seriesKeysOf [⟨"2024-01-01", [("A", 5)]⟩]).contains "date" = false ∧
    specSeriesKeys [⟨"2024-01-01", [("A", 5)]⟩] = ["A", "date"] ∧
    seriesKeysOf [⟨"2024-01-01", [("A", 5)]⟩] = ["A"] := by
  decide

/-- C2 (amended): for every rows list, the derived key set is sorted
ascending lexicographically, duplicate-free, and contains exactly the
field names observed across all rows that are neither `"date"` nor one of
the four reserved aggregate names; moreover every successful load
recomputes it from the response rows alone, ignoring any previous key set
in the state. -/
theorem c2_keyset_characterization (rows : List Row) :
    (seriesKeysOf rows).Sorted (· ≤ ·) ∧ (seriesKeysOf rows).Nodup ∧
    (∀ k, k ∈ seriesKeysOf rows ↔
      (k ≠ "date" ∧ k ∉ reservedKeys ∧ ∃ r ∈ rows, k ∈ r.objKeys)) ∧
    (∀ (s : DashState) (p : Payload),
      ((loadSales s (Except.ok p)).1).seriesKeys = seriesKeysOf (p.rows.getD [])) := by
  refine ⟨seriesKeysOf_sorted rows, seriesKeysOf_nodup rows, ?_, ?_⟩
  · intro k
    rw [mem_seriesKeysOf, isSeriesField_iff, and_assoc]
  · intro s p
    simp only [loadSales, renderState, refreshSelected, buildTypeFilters, setStatus]
    split <;> rfl

/-- Witness for `c2_keyset_characterization` at Scenario A's rows and key `B`. -/
theorem c2_keyset_characterization_witness :
    ("B" ∈ seriesKeysOf sampleRows ↔
      ("B" ≠ "date" ∧ "B" ∉ reservedKeys ∧ ∃ r ∈ sampleRows, "B" ∈ r.objKeys)) :=
  (c2_keyset_characterization sampleRows).2.2.1 "B"

/-! ## Claim C1 — trace count and order -/

theorem filter_length_eq_inter_card (l sel : List String) (h : l.Nodup) :
    (l.filter (fun k => sel.contains k)).length = (l.toFinset ∩ sel.toFinset).card := by
  rw [← List.toFinset_card_of_nodup (h.filter _), List.toFinset_filter]
  rw [← Finset.filter_mem_eq_inter]
  congr 1
  apply Finset.filter_congr
  intro x _
  simp [List.elem_iff]

/-- C1: for every rows list, series-key list, selection, chart type and
show-orders flag, `render` produces one product trace per selected series
key — in the order of the (sorted) series-key list, since `filter`
preserves order — plus exactly one trailing Orders trace iff `showOrders`;
with a duplicate-free series-key list the product-trace count is
`|seriesKeys ∩ selection|`. -/
theorem c1_trace_count_and_order (rows : List Row) (seriesKeys sel : List String)
    (chart : String) (so : Bool) (hnd : seriesKeys.Nodup) :
    (renderTraces rows seriesKeys sel chart so).map Trace.name
      = seriesKeys.filter (fun k => sel.contains k) ++ (if so then ["Orders"] else []) ∧
    (renderTraces rows seriesKeys sel chart so).length
      = (seriesKeys.toFinset ∩ sel.toFinset).card + (if so then 1 else 0) := by
  have hmap : (renderTraces rows seriesKeys sel chart so).map Trace.name
      = seriesKeys.filter (fun k => sel.contains k) ++ (if so then ["Orders"] else []) := by
    simp only [renderTraces, List.map_append]
    congr 1
    · split <;> (rw [List.map_map]; exact List.map_id'' (fun _ => rfl) _)
    · split <;> simp [ordersTrace]
  refine ⟨hmap, ?_⟩
  have hlen := congrArg List.length hmap
  rw [List.length_map] at hlen
  rw [hlen, List.length_append, filter_length_eq_inter_card _ _ hnd]
  congr 1
  split <;> rfl

/-- Witness for `c1_trace_count_and_order` on Scenario A's data, bar chart,
selection `{A}`, orders shown. -/
theorem c1_trace_count_and_order_witness :
    (["A", "B"] : List String).Nodup ∧
    ((renderTraces sampleRows ["A", "B"] ["A"] "bar" true).map Trace.name
        = (["A", "B"] : List String).filter (fun k => (["A"] : List String).contains k) ++
            (if (true : Bool) then ["Orders"] else []) ∧
      (renderTraces sampleRows ["A", "B"] ["A"] "bar" true).length
        = ((["A", "B"] : List String).toFinset ∩ (["A"] : List String).toFinset).card +
            (if (true : Bool) then 1 else 0)) :=
  ⟨by decide, c1_trace_count_and_order sampleRows ["A", "B"] ["A"] "bar" true (by decide)⟩

/-! ## Claim C3 — one value per row, sparse-filled with 0 -/

theorem product_trace_exists (rows : List Row) (seriesKeys sel : List String)
    (chart : String) (so : Bool) (k : String)
    (hmem : k ∈ seriesKeys.filter (fun k => sel.contains k)) :
    ∃ t ∈ renderTraces rows seriesKeys sel chart so,
      t.name = k ∧ t.y = rows.map (fun r => rowGet r k) := by
  simp only [renderTraces]
  by_cases hc : chart = "bar"
  · rw [if_pos hc]
    exact ⟨barTrace (rows.map Row.date) rows k,
      List.mem_append_left _ (List.mem_map_of_mem _ hmem), rfl, rfl⟩
  · rw [if_neg hc]
    exact ⟨lineTrace (rows.map Row.date) rows k,
      List.mem_append_left _ (List.mem_map_of_mem _ hmem), rfl, rfl⟩

/-- C3: every selected series key `k` gets a trace whose `y` is exactly
`rows.map (r[k] || 0)` — one value per row, in row order, `0` where the
row lacks the key, never a gap — and the Orders trace gets the same
treatment on `orders_total`. -/
theorem c3_sparse_fill (rows : List Row) (seriesKeys sel : List String)
    (chart : String) (so : Bool) (k : String)
    (hk : k ∈ seriesKeys) (hsel : k ∈ sel) :
    (∃ t ∈ renderTraces rows seriesKeys sel chart so,
        t.name = k ∧ t.y = rows.map (fun r => rowGet r k) ∧ t.y.length = rows.length) ∧
    (∀ r : Row, k ∉ r.fields.map Prod.fst → rowGet r k = 0) ∧
    (so = true →
      ∃ t ∈ renderTraces rows seriesKeys sel chart so,
        t.name = "Orders" ∧ t.y = rows.map (fun r => rowGet r "orders_total") ∧
        t.y.length = rows.length ∧
        ∀ r : Row, "orders_total" ∉ r.fields.map Prod.fst → rowGet r "orders_total" = 0) := by
  have hmem : k ∈ seriesKeys.filter (fun k => sel.contains k) :=
    List.mem_filter.mpr ⟨hk, List.elem_iff.mpr hsel⟩
  refine ⟨?_, fun r hr => rowGet_of_not_mem r k hr, ?_⟩
  · obtain ⟨t, htmem, htname, hty⟩ := product_trace_exists rows seriesKeys sel chart so k hmem
    exact ⟨t, htmem, htname, hty, by rw [hty, List.length_map]⟩
  · intro hso
    subst hso
    refine ⟨ordersTrace (rows.map Row.date) rows, ?_, rfl, rfl,
      by simp [ordersTrace], fun r hr => rowGet_of_not_mem r "orders_total" hr⟩
    simp only [renderTraces]
    exact List.mem_append_right _ (by simp)

/-- Witness for `c3_sparse_fill` on Scenario A's data with key `B` (absent
on day 2), line chart, orders shown. -/
theorem c3_sparse_fill_witness :
    ("B" ∈ (["A", "B"] : List String)) ∧ ("B" ∈ (["A", "B"] : List String)) ∧
    ((∃ t ∈ renderTraces sampleRows ["A", "B"] ["A", "B"] "line" true,
        t.name = "B" ∧ t.y = sampleRows.map (fun r => rowGet r "B") ∧
        t.y.length = sampleRows.length) ∧
     (∀ r : Row, "B" ∉ r.fields.map Prod.fst → rowGet r "B" = 0) ∧
     ((true : Bool) = true →
      ∃ t ∈ renderTraces sampleRows ["A", "B"] ["A", "B"] "line" true,
        t.name = "Orders" ∧ t.y = sampleRows.map (fun r => rowGet r "orders_total") ∧
        t.y.length = sampleRows.length ∧
        ∀ r : Row, "orders_total" ∉ r.fields.map Prod.fst → rowGet r "orders_total" = 0)) :=
  ⟨by decide, by decide,
    c3_sparse_fill sampleRows ["A", "B"] ["A", "B"] "line" true "B" (by decide) (by decide)⟩

/-! ## Claim C10 — `date` is never a series key -/

/-- C10: for every list of rows, the field name `date` is never in the
derived series-key set, although it is not one of the four reserved
aggregate names — line 107 excludes it explicitly. -/
theorem c10_date_excluded (rows : List Row) :
    (seriesKeysOf rows).contains "date" = false := by
  rw [Bool.eq_false_iff]
  intro hc
  have hm := (mem_seriesKeysOf rows "date").mp (List.elem_iff.mp hc)
  exact absurd hm.1 (by decide)

/-! ## Claim C4 — rebuild resets Selection -/

/-- C4: rebuilding the filters (`buildTypeFilters(keys)`, lines 39-55)
replaces Selection with exactly the new key list and recreates one checked
chip per key, regardless of any prior selection; in particular, after a
prior partial selection `{A}` over keys `{A,B,C}`, a rebuild with
`{A,D}` yields Selection exactly `{A,D}`. -/
theorem c4_rebuild_resets_selection (s : DashState) (keys : List String) :
    (buildTypeFilters s keys).selected = keys ∧
    (buildTypeFilters s keys).chips = keys.map (fun k => ⟨k, true⟩) ∧
    (buildTypeFilters
        { s with seriesKeys := ["A", "B", "C"], selected := ["A"] }
        ["A", "D"]).selected = ["A", "D"] :=
  ⟨rfl, rfl, rfl⟩

/-! ## Claim C5 — failed loads change nothing but the status line -/

/-- C5: on any failing load (non-success HTTP response or transport
failure), the resulting state is the prior state with only the status
surface changed — rows, series keys, selection, currency, chips and
visibility are untouched (lines 95-120: the mutations all sit after the
`await` of `jget`, and the `catch` only calls `setStatus`). -/
theorem c5_error_atomicity (s : DashState) (e : LoadError) :
    (loadSales s (Except.error e)).1
      = { s with status := "Load failed: " ++ e.message, statusErr := true } ∧
    (loadSales s (Except.error e)).1.rows = s.rows ∧
    (loadSales s (Except.error e)).1.seriesKeys = s.seriesKeys ∧
    (loadSales s (Except.error e)).1.selected = s.selected ∧
    (loadSales s (Except.error e)).1.currency = s.currency :=
  ⟨rfl, rfl, rfl, rfl, rfl⟩

/-! ## Claim C6 — hidden filter surface and rendering -/

/-- C6 (code-bug exhibit): with grouping `day` (not the categorical
`product_type`), the spec says Selection is treated as "all keys"
unconditionally and leftover chips have no effect.  The code even assigns
`selected = new Set(seriesKeys)` (line 113) — but the closing `render()`
calls `refreshSelected()`, which rebuilds `selected` from the (hidden)
chip DOM left over from the previous categorical load.  Here `B`'s stale
chip is unchecked, so the chart shows only `A` instead of both keys. -/
theorem c6_hidden_filters_affect_render :
    staleChipState.groupByV = "day" ∧
    ((loadSales staleChipState (Except.ok payloadAB)).1).filtersHidden = true ∧
    ((loadSales staleChipState (Except.ok payloadAB)).1).seriesKeys = ["A", "B"] ∧
    ((loadSales staleChipState (Except.ok payloadAB)).1).selected = ["A"] ∧
    ((renderState ((loadSales staleChipState (Except.ok payloadAB)).1)).2.1).map Trace.name
      = ["A"] := by
  decide

/-! ## Claim C7 — missing shop id -/

/-- C7 (counterexample): with the shop id empty, a click on the Load
button still issues a network request — `loadSales` (lines 95-120) never
guards on `shop`; only the automatic initial load at line 132 does.  The
request goes out with an empty `shop` parameter. -/
theorem c7_counterexample :
    noShopState.shop = "" ∧
    ((step noShopState (Event.clickLoad (Except.error (LoadError.transport
        "fetch failed")))).2).length = 1 ∧
    ((step noShopState (Event.clickLoad (Except.error (LoadError.transport
        "fetch failed")))).2).map Request.shop = [""] := by
  decide

/-- C7 (amended): on initial page load with a missing shop id, no request
is issued and the status surface reports the configuration error; but any
user-triggered load (Load click — likewise metric/grouping/date changes)
issues its one request unconditionally, even with the shop id empty. -/
theorem c7_initial_guard_only (s : DashState) (resp : Except LoadError Payload)
    (h : s.shop = "") :
    initialLoad s resp = (setStatus s "Add ?shop=your-store.myshopify.com" true, []) ∧
    (step s (Event.clickLoad resp)).2 = [requestOf s] := by
  constructor
  · simp [initialLoad, h]
  · cases resp <;> rfl

/-- Witness for `c7_initial_guard_only` at the concrete no-shop state. -/
theorem c7_initial_guard_only_witness :
    (noShopState.shop = "") ∧
    (initialLoad noShopState (Except.error (LoadError.transport "fetch failed"))
        = (setStatus noShopState "Add ?shop=your-store.myshopify.com" true, []) ∧
      (step noShopState (Event.clickLoad (Except.error (LoadError.transport
          "fetch failed")))).2 = [requestOf noShopState]) :=
  ⟨rfl, c7_initial_guard_only noShopState (Except.error (LoadError.transport
    "fetch failed")) rfl⟩

/-! ## Claim C8 — Selection ⊆ SeriesKeySet after registry operations -/

/-- Mapping chips with a key-preserving function preserves the key list. -/
theorem key_preserving_map (cs : List Chip) (g : Chip → Chip)
    (h : ∀ c, (g c).key = c.key) :
    (cs.map g).map Chip.key = cs.map Chip.key := by
  rw [List.map_map]
  exact List.map_congr_left (fun c _ => h c)

/-- C8: in a state whose chip DOM is in sync with the series-key set — as
it is at every point where the filter surface is operable, since
`buildTypeFilters` is only ever invoked with the current `seriesKeys`
(line 112) — each Filter Registry operation
(rebuild, toggle, select-all, select-none) leaves
`Selection ⊆ SeriesKeySet`. -/
theorem c8_selection_subset_invariant (s : DashState) (k : String)
    (hchips : s.chips.map Chip.key = s.seriesKeys) :
    (buildTypeFilters s s.seriesKeys).selected ⊆ (buildTypeFilters s s.seriesKeys).seriesKeys ∧
    (toggleChip s k).selected ⊆ (toggleChip s k).seriesKeys ∧
    (selectAllOp s).selected ⊆ (selectAllOp s).seriesKeys ∧
    (selectNoneOp s).selected ⊆ (selectNoneOp s).seriesKeys := by
  refine ⟨fun x hx => hx, ?_, ?_, ?_⟩
  · show checkedKeys (s.chips.map _) ⊆ s.seriesKeys
    intro x hx
    have hmem := checkedKeys_subset _ hx
    rwa [key_preserving_map s.chips
        (fun c => if c.key = k then { c with checked := !c.checked } else c)
        (fun c => by by_cases h : c.key = k <;> simp [h]), hchips] at hmem
  · show checkedKeys (s.chips.map _) ⊆ s.seriesKeys
    intro x hx
    have hmem := checkedKeys_subset _ hx
    rwa [key_preserving_map s.chips (fun c => { c with checked := true })
        (fun c => rfl), hchips] at hmem
  · show checkedKeys (s.chips.map _) ⊆ s.seriesKeys
    intro x hx
    have hmem := checkedKeys_subset _ hx
    rwa [key_preserving_map s.chips (fun c => { c with checked := false })
        (fun c => rfl), hchips] at hmem

/-- Witness for `c8_selection_subset_invariant` at the synced state left
by a categorical load of Scenario A's rows, toggling `B`. -/
theorem c8_selection_subset_invariant_witness :
    (syncState.chips.map Chip.key = syncState.seriesKeys) ∧
    ((buildTypeFilters syncState syncState.seriesKeys).selected
        ⊆ (buildTypeFilters syncState syncState.seriesKeys).seriesKeys ∧
      (toggleChip syncState "B").selected ⊆ (toggleChip syncState "B").seriesKeys ∧
      (selectAllOp syncState).selected ⊆ (selectAllOp syncState).seriesKeys ∧
      (selectNoneOp syncState).selected ⊆ (selectNoneOp syncState).seriesKeys) :=
  ⟨rfl, c8_selection_subset_invariant syncState "B" rfl⟩

/-! ## Claim C9 — determinism and side effects of the renderer -/

/-- C9 (counterexample): two module states identical in every argument the
claim names — rows, seriesKeys, selection, metric, chartType, showOrders,
currency — produce different chart descriptions, because `render()` reads
the chip DOM (`refreshSelected`, line 62) rather than the `selected`
argument; and it mutates the module variable `selected` (here from
`["A"]` to `[]`), so it is not side-effect-free. -/
theorem c9_counterexample :
    s9a.rows = s9b.rows ∧ s9a.seriesKeys = s9b.seriesKeys ∧
    s9a.selected = s9b.selected ∧ s9a.metricV = s9b.metricV ∧
    s9a.chartTypeV = s9b.chartTypeV ∧ s9a.showOrdersV = s9b.showOrdersV ∧
    s9a.currency = s9b.currency ∧
    ((renderState s9a).2.1).length = 1 ∧ ((renderState s9b).2.1).length = 0 ∧
    s9b.selected = ["A"] ∧ (renderState s9b).1.selected = [] := by
  decide

/-- C9 (amended): the chart description is a deterministic function of
what `render` actually reads — rows, seriesKeys, the chip checked-states,
metric, chartType, showOrders and currency; two invocations from states
agreeing on those produce structurally identical descriptions, and the
only state mutation is overwriting `selected` with the checked chips'
keys. -/
theorem c9_renderer_determinism (s₁ s₂ : DashState)
    (h1 : s₁.rows = s₂.rows) (h2 : s₁.seriesKeys = s₂.seriesKeys)
    (h3 : s₁.chips = s₂.chips) (h4 : s₁.metricV = s₂.metricV)
    (h5 : s₁.chartTypeV = s₂.chartTypeV) (h6 : s₁.showOrdersV = s₂.showOrdersV)
    (h7 : s₁.currency = s₂.currency) :
    (renderState s₁).2 = (renderState s₂).2 ∧
    (renderState s₁).1 = { s₁ with selected := checkedKeys s₁.chips } := by
  constructor
  · simp only [renderState, refreshSelected, renderDesc]
    rw [h1, h2, h3, h4, h5, h6, h7]
  · rfl

/-- Witness for `c9_renderer_determinism`: `s9c` differs from `s9a` only
in fields the renderer does not read. -/
theorem c9_renderer_determinism_witness :
    (s9a.rows = s9c.rows ∧ s9a.seriesKeys = s9c.seriesKeys ∧ s9a.chips = s9c.chips ∧
      s9a.metricV = s9c.metricV ∧ s9a.chartTypeV = s9c.chartTypeV ∧
      s9a.showOrdersV = s9c.showOrdersV ∧ s9a.currency = s9c.currency) ∧
    ((renderState s9a).2 = (renderState s9c).2 ∧
      (renderState s9a).1 = { s9a with selected := checkedKeys s9a.chips }) :=
  ⟨⟨rfl, rfl, rfl, rfl, rfl, rfl, rfl⟩,
    c9_renderer_determinism s9a s9c rfl rfl rfl rfl rfl rfl rfl⟩
